import Mathlib

/-!
Verification development for the AutomatedAIpowered micro-learning quiz
repository. The definitions below are a shallow embedding of the Python
source under `src/src/`: `sandbox_storage.py` (profile record and store),
`sandbox_question_generator.py` (difficulty selection, answer checking,
fallback questions) and `sandbox_answer_evaluator.py` (the evaluation
pipeline). Machine-independent data is kept exact: Python integers become
`Int`, Python's float accuracies become `ℚ` (all thresholds in the source
are exact decimal literals), fallible paths become `Option`/`Bool` results.
-/

namespace AutomatedAI

/-! ## Python string primitives

The answer-matching code uses `str.strip`, `str.upper`, `str.lower`,
substring containment (`in`) and single-character `str.replace`. They are
modelled directly on the character list of a `String`; all strings in the
repository are ASCII, where these agree with Python's semantics. -/

/-- Python `s.strip()`: remove whitespace from both ends. -/
def pyStrip (s : String) : String :=
  ⟨((s.data.dropWhile Char.isWhitespace).reverse.dropWhile Char.isWhitespace).reverse⟩

/-- Python `s.upper()` (ASCII). -/
def pyUpper (s : String) : String := ⟨s.data.map Char.toUpper⟩

/-- Python `s.lower()` (ASCII). -/
def pyLower (s : String) : String := ⟨s.data.map Char.toLower⟩

/-- Python `needle in hay` substring containment. -/
def pyContains (hay needle : String) : Bool :=
  hay.data.tails.any (fun t => List.isPrefixOf needle.data t)

/-- Python `s.replace("-", " ")` (single-character replacement, as used on
course identifiers in `_get_fallback_question`). -/
def pyDashToSpace (s : String) : String :=
  ⟨s.data.map (fun c => if c = '-' then ' ' else c)⟩

/-! ## Data model (`sandbox_storage.py`, `sandbox_question_generator.py`) -/

/-- The preference mapping defaulted in `UserProfile.__post_init__`. -/
structure Preferences where
  difficulty : String
  notifications : Bool
  quiz_time : String
deriving DecidableEq

/-- Default preferences from `UserProfile.__post_init__`. -/
def default_preferences : Preferences :=
  { difficulty := "medium", notifications := true, quiz_time := "09:00" }

/-- `UserProfile` dataclass of `sandbox_storage.py`. Counters are Python
integers, embedded as `Int`. -/
structure UserProfile where
  user_id : String
  enrolled_course : Option String := none
  start_date : Option String := none
  total_questions : Int := 0
  correct_answers : Int := 0
  current_streak : Int := 0
  longest_streak : Int := 0
  last_quiz_date : Option String := none
  completed_course : Bool := false
  preferences : Preferences := default_preferences
deriving DecidableEq

/-- `QuizQuestion` dataclass of `sandbox_question_generator.py`. -/
structure QuizQuestion where
  question_id : String
  course : String
  difficulty : String
  question_text : String
  question_type : String
  options : List String
  correct_answer : String
  explanation : String
  topic : String
  estimated_time : Int
  created_date : String
deriving DecidableEq

/-- `QuizResult` dataclass of `sandbox_question_generator.py`. -/
structure QuizResult where
  question_id : String
  user_answer : String
  correct_answer : String
  is_correct : Bool
  time_taken : Int
  timestamp : String
deriving DecidableEq

/-! ## Profile store (`sandbox_storage.py`)

The JSON-file-per-user store is abstracted to an association list from
`user_id` to the stored profile, plus a flag `save_ok` saying whether
filesystem writes succeed (when a write raises in Python,
`save_user_profile` catches the exception and returns `False`, leaving the
abstract store unchanged). -/

/-- Abstract state of `SandboxStorage`. -/
structure StorageState where
  profiles : List (String × UserProfile)
  save_ok : Bool
deriving DecidableEq

/-- `SandboxStorage.get_user_profile`: read the stored record, `none` when
no profile file exists for the user. -/
def get_user_profile (st : StorageState) (user_id : String) : Option UserProfile :=
  st.profiles.lookup user_id

/-- `SandboxStorage.save_user_profile`: whole-record overwrite keyed by
`user_id`; returns `False` (store unchanged) when the write fails. -/
def save_user_profile (st : StorageState) (profile : UserProfile) : Bool × StorageState :=
  if st.save_ok then
    (true, { st with
      profiles := (profile.user_id, profile) ::
        st.profiles.filter (fun kv => kv.1 != profile.user_id) })
  else
    (false, st)

/-! ## Answer checking (`SandboxQuestionGenerator.check_answer`, lines 484-513) -/

/-- The `letter_map` dict of `check_answer` (line 494). -/
def letter_map (s : String) : Option String :=
  List.lookup s [("1", "A"), ("2", "B"), ("3", "C"), ("4", "D")]

/-- The correctness computation of `check_answer` (lines 486-504): exact
letter first, then digit 1-4, then a first-match case-insensitive substring
scan over the options, else incorrect. -/
def check_answer_correct (question : QuizQuestion) (user_answer : String) : Bool :=
  let user_answer_clean := pyUpper (pyStrip user_answer)
  let correct_answer_clean := pyUpper (pyStrip question.correct_answer)
  if user_answer_clean == "A" || user_answer_clean == "B" ||
     user_answer_clean == "C" || user_answer_clean == "D" then
    user_answer_clean == correct_answer_clean
  else if user_answer_clean == "1" || user_answer_clean == "2" ||
          user_answer_clean == "3" || user_answer_clean == "4" then
    letter_map user_answer_clean == some correct_answer_clean
  else
    match question.options.findIdx?
        (fun option => pyContains (pyLower option) (pyLower user_answer)) with
    | some i => String.mk [Char.ofNat (65 + i)] == correct_answer_clean
    | none => false

/-- The normalization underlying `check_answer`, factored as the canonical
choice letter it resolves the raw answer to (same branch structure as
`check_answer_correct`; `none` models the for-else fallthrough). -/
def normalize_answer (user_answer : String) (options : List String) : Option String :=
  let clean := pyUpper (pyStrip user_answer)
  if clean == "A" || clean == "B" || clean == "C" || clean == "D" then
    some clean
  else if clean == "1" || clean == "2" || clean == "3" || clean == "4" then
    letter_map clean
  else
    match options.findIdx?
        (fun option => pyContains (pyLower option) (pyLower user_answer)) with
    | some i => some (String.mk [Char.ofNat (65 + i)])
    | none => none

/-! ## Difficulty selection (`_determine_difficulty`, lines 142-154 of both
`sandbox_question_generator.py` and `ai_question_generator.py`; the two
copies are textually identical) -/

/-- `_determine_difficulty`: NOTE the source checks the intermediate branch
before the advanced branch. -/
def determine_difficulty (profile : UserProfile) : String :=
  if profile.total_questions = 0 then
    "beginner"
  else
    let accuracy : ℚ := (profile.correct_answers : ℚ) / (profile.total_questions : ℚ)
    if accuracy ≥ 0.8 ∧ profile.total_questions ≥ 5 then
      "intermediate"
    else if accuracy ≥ 0.9 ∧ profile.total_questions ≥ 10 then
      "advanced"
    else
      "beginner"

/-! ## Evaluator (`sandbox_answer_evaluator.py`) -/

/-- The profile-counter update block of `evaluate_answer` (lines 37-44):
`total_questions += 1`; on a correct answer `correct_answers += 1`,
`current_streak += 1` and `longest_streak` raised to `current_streak` when
exceeded; on an incorrect answer `current_streak = 0`. -/
def update_profile_statistics (profile : UserProfile) (is_correct : Bool) : UserProfile :=
  let p := { profile with total_questions := profile.total_questions + 1 }
  if is_correct then
    let p := { p with
      correct_answers := p.correct_answers + 1,
      current_streak := p.current_streak + 1 }
    if p.current_streak > p.longest_streak then
      { p with longest_streak := p.current_streak }
    else p
  else
    { p with current_streak := 0 }

/-- The unguarded division `profile.correct_answers / profile.total_questions`
of `_generate_feedback` (line 94); `none` models the `ZeroDivisionError`
Python would raise when `total_questions == 0`. -/
def raw_accuracy (profile : UserProfile) : Option ℚ :=
  if profile.total_questions = 0 then none
  else some ((profile.correct_answers : ℚ) / (profile.total_questions : ℚ))

/-- The guarded accuracy
`correct_answers / total_questions if total_questions > 0 else 0`
(lines 121, 174 and 249 of `sandbox_answer_evaluator.py`). -/
def guarded_accuracy (profile : UserProfile) : ℚ :=
  if profile.total_questions > 0 then
    (profile.correct_answers : ℚ) / (profile.total_questions : ℚ)
  else 0

/-- The feedback dict built by `_generate_feedback`. -/
structure Feedback where
  immediate : String
  explanation : String
  encouragement : String
  next_steps : String
deriving DecidableEq

/-- `_generate_feedback` (lines 73-113). The result is `none` exactly when
the unguarded accuracy division on line 94 would raise. -/
def generate_feedback (profile : UserProfile) (question_explanation : String)
    (is_correct : Bool) : Option Feedback :=
  if is_correct then
    let immediate :=
      if profile.current_streak ≥ 5 then
        "🔥 Excellent! You\x27re on a " ++ toString profile.current_streak ++
          "-question streak!"
      else if profile.current_streak ≥ 3 then
        "🌟 Great job! " ++ toString profile.current_streak ++
          " correct answers in a row!"
      else "✅ Correct! Well done!"
    match raw_accuracy profile with
    | none => none
    | some accuracy =>
      some { immediate := immediate
             explanation := question_explanation
             encouragement := "Keep up the great work! You\x27re making excellent progress."
             next_steps :=
               if accuracy ≥ 0.8 ∧ profile.total_questions ≥ 5 then
                 "You\x27re ready for more challenging questions!"
               else
                 "Try another question to build your confidence." }
  else
    some { immediate := "❌ Not quite right, but that\x27s okay! Learning happens through mistakes."
           explanation := question_explanation
           encouragement := "Don\x27t give up! Every expert was once a beginner."
           next_steps :=
             if profile.total_questions < 3 then
               "Take your time and read questions carefully. You\x27re just getting started!"
             else if profile.current_streak = 0 ∧ profile.total_questions ≥ 5 then
               "Consider reviewing the basics for this topic before continuing."
             else
               "Try breaking down the problem step by step." }

/-- `LearningInsight` dataclass. The `message` text (which embeds a
float-percent rendering of the accuracy) and the `generated_date` timestamp
are presentation-only fields and are not modelled. -/
structure LearningInsight where
  user_id : String
  insight_type : String
  topic : String
  confidence : ℚ
deriving DecidableEq

/-- `_generate_learning_insights` (lines 115-170): performance-trend insight
(needs at least 5 questions), streak insight (streak of 5 or more), and a
topic recommendation on an incorrect answer, in that order. Its accuracy is
the guarded division of line 121. -/
def generate_learning_insights (profile : UserProfile) (question_topic : String)
    (is_correct : Bool) : List LearningInsight :=
  let accuracy := guarded_accuracy profile
  (if profile.total_questions ≥ 5 then
    (if accuracy ≥ 0.8 then
      [{ user_id := profile.user_id, insight_type := "strength",
         topic := question_topic, confidence := 0.9 }]
     else if accuracy < 0.5 then
      [{ user_id := profile.user_id, insight_type := "weakness",
         topic := question_topic, confidence := 0.8 }]
     else [])
   else [])
  ++ (if profile.current_streak ≥ 5 then
      [{ user_id := profile.user_id, insight_type := "strength",
         topic := "General", confidence := 0.95 }]
     else [])
  ++ (if is_correct then []
     else
      [{ user_id := profile.user_id, insight_type := "recommendation",
         topic := question_topic, confidence := 0.7 }])

/-- The summary dict of `_get_performance_summary`. -/
structure PerformanceSummary where
  accuracy : ℚ
  level : String
  emoji : String
  total_questions : Int
  correct_answers : Int
  current_streak : Int
  longest_streak : Int
deriving DecidableEq

/-- `_get_performance_summary` (lines 172-201): guarded accuracy, then the
first matching tier of `0.9 / 0.8 / 0.7 / 0.6`, else "Learning". -/
def get_performance_summary (profile : UserProfile) : PerformanceSummary :=
  let accuracy := guarded_accuracy profile
  let tier :=
    if accuracy ≥ 0.9 then ("Excellent", "🏆")
    else if accuracy ≥ 0.8 then ("Great", "🌟")
    else if accuracy ≥ 0.7 then ("Good", "👍")
    else if accuracy ≥ 0.6 then ("Fair", "📚")
    else ("Learning", "🌱")
  { accuracy := accuracy
    level := tier.1
    emoji := tier.2
    total_questions := profile.total_questions
    correct_answers := profile.correct_answers
    current_streak := profile.current_streak
    longest_streak := profile.longest_streak }

/-- The evaluation dict returned by `evaluate_answer`: a success payload or
a typed failure (`success=False` with an error string). -/
structure EvalOutcome where
  success : Bool
  error : Option String := none
  result : Option QuizResult := none
  feedback : Option Feedback := none
  insights : List LearningInsight := []
  updated_profile : Option UserProfile := none
  performance_summary : Option PerformanceSummary := none
deriving DecidableEq

/-- `SandboxAnswerEvaluator.evaluate_answer` (lines 27-71). Looks up the
profile (typed failure when absent), updates the counters and
`last_quiz_date` (the wall-clock time enters as the `now` parameter), calls
`save_user_profile` discarding its boolean result exactly as the source
does (line 49), then builds feedback, insights and the performance summary.
A `ZeroDivisionError` escaping `_generate_feedback` is caught by the outer
handler and returned as a typed failure, after the save has happened. -/
def evaluate_answer (st : StorageState) (user_id : String) (question : QuizQuestion)
    (result : QuizResult) (now : String) : EvalOutcome × StorageState :=
  match get_user_profile st user_id with
  | none => ({ success := false, error := some "User profile not found" }, st)
  | some profile =>
    let updated := update_profile_statistics profile result.is_correct
    let updated := { updated with last_quiz_date := some now }
    let saved := save_user_profile st updated
    match generate_feedback updated question.explanation result.is_correct with
    | none => ({ success := false, error := some "division by zero" }, saved.2)
    | some fb =>
      ({ success := true
         result := some result
         feedback := some fb
         insights := generate_learning_insights updated question.topic result.is_correct
         updated_profile := some updated
         performance_summary := some (get_performance_summary updated) }, saved.2)

/-! ## Static fallback questions (`_get_fallback_question`, lines 260-466)

The nested dict literal of `_get_fallback_question` is transcribed
per-topic. `random.choice` over a non-empty list is modelled by an
arbitrary `pick : Nat` index taken modulo the list length. -/

/-- One entry of the fallback table (the dict shape the generator expects). -/
structure FallbackQuestion where
  question_text : String
  options : List String
  correct_answer : String
  explanation : String
  estimated_time : Int
deriving DecidableEq

/-- Fallback entries for python-basics / Variables and Data Types. -/
def variables_and_data_types_questions : List FallbackQuestion :=
  [{ question_text := "What is the correct way to create a variable in Python?"
     options := ["A) var x = 5", "B) x = 5", "C) int x = 5", "D) declare x = 5"]
     correct_answer := "B"
     explanation := "In Python, variables are created by simply assigning a value using the equals sign. No special keywords are needed."
     estimated_time := 45 },
   { question_text := "Which of the following is a valid Python variable name?"
     options := ["A) 2variable", "B) variable-name", "C) variable_name", "D) variable name"]
     correct_answer := "C"
     explanation := "Python variable names can contain letters, numbers, and underscores, but cannot start with a number or contain spaces/hyphens."
     estimated_time := 40 },
   { question_text := "What data type would Python assign to the variable: x = 3.14?"
     options := ["A) int", "B) float", "C) string", "D) decimal"]
     correct_answer := "B"
     explanation := "Python automatically assigns the float data type to numbers with decimal points."
     estimated_time := 35 }]

/-- Fallback entries for python-basics / Lists and Dictionaries. -/
def lists_and_dictionaries_questions : List FallbackQuestion :=
  [{ question_text := "What is the correct way to create a list in Python?"
     options := ["A) list = \x7b1, 2, 3\x7d", "B) list = [1, 2, 3]", "C) list = (1, 2, 3)", "D) list = <1, 2, 3>"]
     correct_answer := "B"
     explanation := "Lists in Python are created using square brackets []. Curly braces \x7b\x7d create sets, parentheses () create tuples."
     estimated_time := 50 },
   { question_text := "How do you access the first element of a list called \x27my_list\x27?"
     options := ["A) my_list[1]", "B) my_list[0]", "C) my_list.first()", "D) my_list.get(1)"]
     correct_answer := "B"
     explanation := "Python uses zero-based indexing, so the first element is accessed with index [0]."
     estimated_time := 45 },
   { question_text := "What is the correct syntax to create a dictionary in Python?"
     options := ["A) dict = [key: value]", "B) dict = (key: value)", "C) dict = \x7bkey: value\x7d", "D) dict = <key: value>"]
     correct_answer := "C"
     explanation := "Dictionaries in Python are created using curly braces \x7b\x7d with key-value pairs separated by colons."
     estimated_time := 55 }]

/-- Fallback entries for python-basics / Functions and Parameters. -/
def functions_and_parameters_questions : List FallbackQuestion :=
  [{ question_text := "How do you define a function in Python?"
     options := ["A) function myFunc():", "B) def myFunc():", "C) func myFunc():", "D) define myFunc():"]
     correct_answer := "B"
     explanation := "Functions in Python are defined using the \x27def\x27 keyword followed by the function name and parentheses."
     estimated_time := 40 },
   { question_text := "How do you call a function named \x27calculate\x27 with no parameters?"
     options := ["A) call calculate()", "B) calculate()", "C) run calculate", "D) execute calculate()"]
     correct_answer := "B"
     explanation := "Functions are called by writing the function name followed by parentheses, even if no parameters are needed."
     estimated_time := 35 }]

/-- Fallback entries for python-basics / Control Flow (if/else, loops). -/
def control_flow_questions : List FallbackQuestion :=
  [{ question_text := "What is the correct syntax for an if statement in Python?"
     options := ["A) if (x == 5) \x7b", "B) if x == 5:", "C) if x = 5:", "D) if x equals 5:"]
     correct_answer := "B"
     explanation := "Python if statements use a colon (:) and do not require parentheses or curly braces."
     estimated_time := 45 },
   { question_text := "Which loop is best for iterating over a list in Python?"
     options := ["A) while loop", "B) for loop", "C) do-while loop", "D) repeat loop"]
     correct_answer := "B"
     explanation := "For loops are ideal for iterating over sequences like lists, strings, and tuples in Python."
     estimated_time := 50 }]

/-- Fallback entries for python-basics / Object-Oriented Programming Basics. -/
def oop_basics_questions : List FallbackQuestion :=
  [{ question_text := "How do you define a class in Python?"
     options := ["A) class MyClass:", "B) Class MyClass:", "C) define MyClass:", "D) object MyClass:"]
     correct_answer := "A"
     explanation := "Classes in Python are defined using the \x27class\x27 keyword (lowercase) followed by the class name and a colon."
     estimated_time := 50 },
   { question_text := "What is the special method used to initialize objects in a Python class?"
     options := ["A) __start__()", "B) __create__()", "C) __init__()", "D) __new__()"]
     correct_answer := "C"
     explanation := "The __init__() method is automatically called when a new object is created from a class."
     estimated_time := 55 }]

/-- Fallback entries for javascript-intro / Variables (let, const, var). -/
def js_variables_questions : List FallbackQuestion :=
  [{ question_text := "Which keyword should you use to declare a variable that won\x27t be reassigned?"
     options := ["A) var", "B) let", "C) const", "D) final"]
     correct_answer := "C"
     explanation := "The \x27const\x27 keyword is used for variables that won\x27t be reassigned after their initial value."
     estimated_time := 40 },
   { question_text := "What is the difference between \x27let\x27 and \x27var\x27 in JavaScript?"
     options := ["A) No difference", "B) \x27let\x27 has block scope, \x27var\x27 has function scope", "C) \x27var\x27 is newer", "D) \x27let\x27 is faster"]
     correct_answer := "B"
     explanation := "\x27let\x27 has block scope (limited to the nearest enclosing block), while \x27var\x27 has function scope."
     estimated_time := 60 }]

/-- Fallback entries for javascript-intro / Functions and Arrow Functions. -/
def js_arrow_functions_questions : List FallbackQuestion :=
  [{ question_text := "What is the correct syntax for an arrow function in JavaScript?"
     options := ["A) function => \x7b\x7d", "B) () => \x7b\x7d", "C) -> \x7b\x7d", "D) lambda \x7b\x7d"]
     correct_answer := "B"
     explanation := "Arrow functions use the syntax () => \x7b\x7d where parameters go in parentheses followed by => and the function body."
     estimated_time := 45 }]

/-- Fallback entries for javascript-intro / Arrays and Objects. -/
def js_arrays_questions : List FallbackQuestion :=
  [{ question_text := "How do you add an element to the end of a JavaScript array?"
     options := ["A) array.add(element)", "B) array.push(element)", "C) array.append(element)", "D) array.insert(element)"]
     correct_answer := "B"
     explanation := "The push() method adds one or more elements to the end of an array and returns the new length."
     estimated_time := 40 }]

/-- Fallback entries for data-science / Data Types and Structures. -/
def ds_data_types_questions : List FallbackQuestion :=
  [{ question_text := "Which Python library is most commonly used for data manipulation?"
     options := ["A) NumPy", "B) Pandas", "C) Matplotlib", "D) Scikit-learn"]
     correct_answer := "B"
     explanation := "Pandas is the primary library for data manipulation and analysis, providing DataFrames and Series structures."
     estimated_time := 45 }]

/-- Fallback entries for data-science / Statistics and Probability. -/
def ds_statistics_questions : List FallbackQuestion :=
  [{ question_text := "What does a p-value represent in statistical testing?"
     options := ["A) The probability of the hypothesis being true", "B) The probability of observing the data given the null hypothesis is true", "C) The power of the test", "D) The confidence interval"]
     correct_answer := "B"
     explanation := "A p-value is the probability of observing the test results under the assumption that the null hypothesis is correct."
     estimated_time := 70 }]

/-- Fallback entries for web-dev / HTML5 Semantics. -/
def web_html_questions : List FallbackQuestion :=
  [{ question_text := "Which HTML5 element should be used for the main content of a page?"
     options := ["A) <div>", "B) <main>", "C) <content>", "D) <section>"]
     correct_answer := "B"
     explanation := "The <main> element represents the main content of the page, excluding headers, footers, and sidebars."
     estimated_time := 40 }]

/-- Fallback entries for web-dev / CSS3 and Flexbox. -/
def web_css_questions : List FallbackQuestion :=
  [{ question_text := "Which CSS property is used to create a flex container?"
     options := ["A) display: flex", "B) flex: container", "C) layout: flex", "D) position: flex"]
     correct_answer := "A"
     explanation := "The display: flex property turns an element into a flex container, enabling flexbox layout for its children."
     estimated_time := 45 }]

/-- The full `fallback_questions` nested dict (lines 262-435). -/
def fallback_questions : List (String × List (String × List FallbackQuestion)) :=
  [("python-basics",
    [("Variables and Data Types", variables_and_data_types_questions),
     ("Lists and Dictionaries", lists_and_dictionaries_questions),
     ("Functions and Parameters", functions_and_parameters_questions),
     ("Control Flow (if/else, loops)", control_flow_questions),
     ("Object-Oriented Programming Basics", oop_basics_questions)]),
   ("javascript-intro",
    [("Variables (let, const, var)", js_variables_questions),
     ("Functions and Arrow Functions", js_arrow_functions_questions),
     ("Arrays and Objects", js_arrays_questions)]),
   ("data-science",
    [("Data Types and Structures", ds_data_types_questions),
     ("Statistics and Probability", ds_statistics_questions)]),
   ("web-dev",
    [("HTML5 Semantics", web_html_questions),
     ("CSS3 and Flexbox", web_css_questions)])]

/-- The generic templated fallback (lines 445-466), synthesized when the
(course, topic) pair has no table entries. -/
def generic_fallback_question (course topic difficulty : String) : FallbackQuestion :=
  let indicator :=
    (List.lookup difficulty
      [("beginner", "fundamental"), ("intermediate", "practical"),
       ("advanced", "complex")]).getD "sample"
  { question_text := "This is a " ++ indicator ++ " " ++ difficulty ++
      "-level question about " ++ topic ++ " in " ++ pyDashToSpace course ++
      ". What is the best practice for implementing this concept?"
    options := ["A) Use the most common approach with basic syntax",
                "B) Follow industry best practices and conventions",
                "C) Optimize for performance over readability",
                "D) Use the newest available features"]
    correct_answer := "B"
    explanation := "Following industry best practices ensures your " ++
      pyLower topic ++
      " code is maintainable, readable, and follows established conventions in " ++
      pyDashToSpace course ++ "."
    estimated_time := 60 }

/-- `_get_fallback_question` (lines 260-466): look up the course dict, then
the topic list; pick a random entry (`pick` modulo the length) when the
topic has entries, else synthesize the generic question. -/
def get_fallback_question (course topic difficulty : String) (pick : Nat) : FallbackQuestion :=
  let course_questions := (fallback_questions.lookup course).getD []
  let topic_questions := (course_questions.lookup topic).getD []
  match topic_questions with
  | [] => generic_fallback_question course topic difficulty
  | q :: qs => (q :: qs).getD (pick % (q :: qs).length) q

/-- The profile invariants of the spec's data model: non-negative counters,
`correct_answers ≤ total_questions` and `current_streak ≤ longest_streak`. -/
def Inv (p : UserProfile) : Prop :=
  0 ≤ p.total_questions ∧ 0 ≤ p.correct_answers ∧
  0 ≤ p.current_streak ∧ 0 ≤ p.longest_streak ∧
  p.correct_answers ≤ p.total_questions ∧
  p.current_streak ≤ p.longest_streak

instance (p : UserProfile) : Decidable (Inv p) := by
  unfold Inv; infer_instance

/-- Boolean well-formedness of a fallback question: exactly 4 options and a
canonical correct letter. -/
def questionWF (q : FallbackQuestion) : Bool :=
  q.options.length == 4 &&
    (q.correct_answer == "A" || q.correct_answer == "B" ||
     q.correct_answer == "C" || q.correct_answer == "D")

/-! ## Concrete fixtures used by the theorems below -/

/-- A freshly enrolled profile (all counters at their dataclass defaults). -/
def fresh_profile : UserProfile :=
  { user_id := "sandbox_user", enrolled_course := some "python-basics",
    start_date := some "2024-01-01T09:00:00" }

/-- A profile with ten questions answered, all of them correctly. -/
def perfect_ten_profile : UserProfile :=
  { fresh_profile with
    total_questions := 10,
    correct_answers := 10,
    current_streak := 10,
    longest_streak := 10 }

/-- A profile mid-way through a course (4 questions, 3 correct). -/
def alice_profile : UserProfile :=
  { user_id := "alice", enrolled_course := some "python-basics",
    start_date := some "2024-01-01T09:00:00",
    total_questions := 4, correct_answers := 3,
    current_streak := 1, longest_streak := 2 }

/-- A concrete quiz question (the first Variables-and-Data-Types fallback,
whose correct answer is B). -/
def sample_question : QuizQuestion :=
  { question_id := "python-basics_Variables and Data Types_20240101_090000_1234"
    course := "python-basics"
    difficulty := "beginner"
    question_text := "What is the correct way to create a variable in Python?"
    question_type := "multiple_choice"
    options := ["A) var x = 5", "B) x = 5", "C) int x = 5", "D) declare x = 5"]
    correct_answer := "B"
    explanation := "In Python, variables are created by simply assigning a value using the equals sign. No special keywords are needed."
    topic := "Variables and Data Types"
    estimated_time := 45
    created_date := "2024-01-01T09:00:00" }

/-- A concrete quiz question whose correct answer is A (the first
Object-Oriented Programming Basics fallback). -/
def class_question : QuizQuestion :=
  { question_id := "python-basics_Object-Oriented Programming Basics_20240101_090000_5678"
    course := "python-basics"
    difficulty := "beginner"
    question_text := "How do you define a class in Python?"
    question_type := "multiple_choice"
    options := ["A) class MyClass:", "B) Class MyClass:", "C) define MyClass:", "D) object MyClass:"]
    correct_answer := "A"
    explanation := "Classes in Python are defined using the \x27class\x27 keyword (lowercase) followed by the class name and a colon."
    topic := "Object-Oriented Programming Basics"
    estimated_time := 50
    created_date := "2024-01-01T09:00:00" }

/-- A quiz result for `sample_question` (correct when `is_correct`). -/
def sample_result (is_correct : Bool) : QuizResult :=
  { question_id := sample_question.question_id
    user_answer := if is_correct then "B" else "A"
    correct_answer := "B"
    is_correct := is_correct
    time_taken := 10
    timestamp := "2024-01-01T09:00:30" }

/-- A store holding no profiles at all. -/
def empty_store : StorageState := { profiles := [], save_ok := true }

/-- A store holding alice's profile whose filesystem writes all fail. -/
def failing_write_store : StorageState :=
  { profiles := [("alice", alice_profile)], save_ok := false }

/-! ## Theorems -/

/-- Claim C1 (code bug): the spec's difficulty policy checks the advanced
tier before the intermediate one, so a profile with `total_questions = 10`
and `correct_answers = 10` should get "advanced". The source's
`_determine_difficulty` checks the intermediate branch first, and since the
advanced condition implies the intermediate one, the advanced branch is
unreachable: the perfect ten-question profile gets "intermediate", and no
profile whatsoever gets "advanced". -/
theorem determine_difficulty_advanced_unreachable :
    determine_difficulty perfect_ten_profile = "intermediate" ∧
    ∀ p : UserProfile,
      determine_difficulty p ∈ (["beginner", "intermediate"] : List String) := by
  constructor
  · norm_num [determine_difficulty, perfect_ten_profile, fresh_profile]
  · intro p
    simp only [determine_difficulty]
    split_ifs with h0 h1 h2
    · decide
    · decide
    · exact absurd ⟨le_trans (by norm_num) h2.1, by omega⟩ h1
    · decide

/-- Claim C7: each evaluation increments `total_questions`; a correct answer
additionally increments `correct_answers` and `current_streak` and raises
`longest_streak` to their maximum, while an incorrect answer resets
`current_streak` to 0; the sequence [correct, correct, incorrect, correct]
from a fresh profile ends with streak 1, longest streak 2, 4 questions and
3 correct answers. -/
theorem profile_counter_update_spec :
    (∀ p : UserProfile, update_profile_statistics p true =
      { p with
        total_questions := p.total_questions + 1,
        correct_answers := p.correct_answers + 1,
        current_streak := p.current_streak + 1,
        longest_streak := max p.longest_streak (p.current_streak + 1) }) ∧
    (∀ p : UserProfile, update_profile_statistics p false =
      { p with
        total_questions := p.total_questions + 1,
        current_streak := 0 }) ∧
    ([true, true, false, true].foldl update_profile_statistics fresh_profile).current_streak = 1 ∧
    ([true, true, false, true].foldl update_profile_statistics fresh_profile).longest_streak = 2 ∧
    ([true, true, false, true].foldl update_profile_statistics fresh_profile).total_questions = 4 ∧
    ([true, true, false, true].foldl update_profile_statistics fresh_profile).correct_answers = 3 := by
  refine ⟨?_, ?_, by decide, by decide, by decide, by decide⟩
  · intro p
    rcases p with ⟨uid, ec, sd, tq, ca, cs, ls, lq, cc, pr⟩
    simp only [update_profile_statistics, if_true]
    split_ifs with h
    · rw [max_eq_right (by omega : ls ≤ cs + 1)]
    · rw [max_eq_left (by omega : cs + 1 ≤ ls)]
  · intro p
    rfl

/-- Claim C8: evaluating an answer for a user with no stored profile yields
the typed "User profile not found" failure and leaves the store unchanged. -/
theorem evaluate_answer_profile_not_found
    (st : StorageState) (user_id : String) (question : QuizQuestion)
    (result : QuizResult) (now : String)
    (h : get_user_profile st user_id = none) :
    evaluate_answer st user_id question result now =
      ({ success := false, error := some "User profile not found" }, st) := by
  unfold evaluate_answer
  rw [h]

/-- Witness for C8 at a concrete empty store. -/
theorem evaluate_answer_profile_not_found_witness :
    get_user_profile empty_store "ghost" = none ∧
    evaluate_answer empty_store "ghost" sample_question (sample_result true)
        "2024-01-02T09:00:00" =
      ({ success := false, error := some "User profile not found" }, empty_store) :=
  ⟨rfl, evaluate_answer_profile_not_found empty_store "ghost" sample_question
    (sample_result true) "2024-01-02T09:00:00" rfl⟩

/-- The counter update always increments the question total by one. -/
lemma update_total_questions (p : UserProfile) (c : Bool) :
    (update_profile_statistics p c).total_questions = p.total_questions + 1 := by
  unfold update_profile_statistics
  cases c
  · rfl
  · dsimp only
    split_ifs <;> rfl

/-- The unguarded accuracy division is defined whenever the question total
is non-zero. -/
lemma raw_accuracy_of_ne_zero (p : UserProfile) (h : p.total_questions ≠ 0) :
    raw_accuracy p =
      some ((p.correct_answers : ℚ) / (p.total_questions : ℚ)) := by
  unfold raw_accuracy
  simp [h]

/-- `_generate_feedback` never hits its division by zero when it runs on the
profile produced by the counter update from a valid state: the feedback-path
division runs after `total_questions` has been incremented. -/
lemma generate_feedback_isSome (p : UserProfile) (h : (0 : Int) ≤ p.total_questions)
    (expl now : String) (c : Bool) :
    (generate_feedback { update_profile_statistics p c with last_quiz_date := some now }
      expl c).isSome = true := by
  cases c
  · simp [generate_feedback]
  · unfold generate_feedback
    rw [raw_accuracy_of_ne_zero]
    · simp
    · have := update_total_questions p true
      show (update_profile_statistics p true).total_questions ≠ 0
      omega

/-- Claim C2 counterexample: in a store whose writes fail, the persistence
write of the updated profile fails (`save_user_profile` returns `False`),
yet `evaluate_answer` still reports a success outcome. -/
theorem evaluate_answer_success_despite_failed_write :
    (save_user_profile failing_write_store
      { update_profile_statistics alice_profile true with
        last_quiz_date := some "2024-01-02T09:00:00" }).1 = false ∧
    (evaluate_answer failing_write_store "alice" sample_question
      (sample_result true) "2024-01-02T09:00:00").1.success = true := by
  constructor
  · rfl
  · rfl

/-- Claim C2 amended: `evaluate_answer` discards the boolean result of
`save_user_profile` (line 49 of the source), so when every persistence
write fails it still returns a success outcome whenever the profile lookup
succeeded (and the stored counters are in a valid state): the write failure
is only logged inside the store, never surfaced as a typed failure. -/
theorem evaluate_answer_ignores_save_failure
    (st : StorageState) (user_id now : String) (question : QuizQuestion)
    (result : QuizResult) (p : UserProfile)
    (hp : get_user_profile st user_id = some p)
    (hinv : (0 : Int) ≤ p.total_questions)
    (hsave : st.save_ok = false) :
    (∀ q : UserProfile, (save_user_profile st q).1 = false) ∧
    (evaluate_answer st user_id question result now).1.success = true := by
  constructor
  · intro q
    unfold save_user_profile
    rw [hsave]
    rfl
  · unfold evaluate_answer
    rw [hp]
    obtain ⟨fb, hfb⟩ := Option.isSome_iff_exists.mp
      (generate_feedback_isSome p hinv question.explanation now result.is_correct)
    dsimp only
    rw [hfb]

/-- Witness for the amended C2 at the concrete failing store. -/
theorem evaluate_answer_ignores_save_failure_witness :
    get_user_profile failing_write_store "alice" = some alice_profile ∧
    (evaluate_answer failing_write_store "alice" sample_question
      (sample_result false) "2024-01-02T09:00:00").1.success = true :=
  ⟨rfl, (evaluate_answer_ignores_save_failure failing_write_store "alice"
    "2024-01-02T09:00:00" sample_question (sample_result false) alice_profile
    rfl (by decide) rfl).2⟩

/-- A single counter update preserves the profile invariants. -/
lemma update_preserves_inv (p : UserProfile) (h : Inv p) (c : Bool) :
    Inv (update_profile_statistics p c) := by
  obtain ⟨h1, h2, h3, h4, h5, h6⟩ := h
  rcases p with ⟨uid, ec, sd, tq, ca, cs, ls, lq, cc, pr⟩
  unfold update_profile_statistics Inv
  cases c
  · dsimp only
    simp_all
    omega
  · dsimp only
    split_ifs with hgt
    all_goals simp_all
    all_goals omega

/-- Claim C3: starting from any profile satisfying the data-model
invariants, every single evaluation and every finite sequence of
evaluations preserves them: the four counters stay non-negative,
`correct_answers ≤ total_questions` and `current_streak ≤ longest_streak`
hold after each step. -/
theorem evaluation_preserves_profile_invariants
    (p : UserProfile) (h : Inv p) :
    (∀ c : Bool, Inv (update_profile_statistics p c)) ∧
    (∀ results : List Bool, Inv (results.foldl update_profile_statistics p)) := by
  refine ⟨fun c => update_preserves_inv p h c, ?_⟩
  intro results
  induction results generalizing p with
  | nil => exact h
  | cons c cs ih => exact ih _ (update_preserves_inv p h c)

/-- Witness for C3 at the fresh profile and a concrete evaluation run. -/
theorem evaluation_preserves_profile_invariants_witness :
    Inv fresh_profile ∧
    Inv ([true, true, false, true].foldl update_profile_statistics fresh_profile) :=
  ⟨by decide,
   (evaluation_preserves_profile_invariants fresh_profile (by decide)).2
     [true, true, false, true]⟩

/-- Claim C4: normalization applies its steps in priority order. When the
trimmed-uppercased raw answer is an explicit letter or digit, the outcome is
independent of the option texts (so letter/number entry always takes
precedence over substring matching); and for a question whose correct
answer is "A", the raw answers "a", "A" and "1" are all judged correct. -/
theorem answer_normalization_priority_order :
    (∀ (ua : String) (options options' : List String),
      pyUpper (pyStrip ua) ∈
        (["A", "B", "C", "D", "1", "2", "3", "4"] : List String) →
      normalize_answer ua options = normalize_answer ua options') ∧
    (∀ q : QuizQuestion, q.correct_answer = "A" →
      check_answer_correct q "a" = true ∧
      check_answer_correct q "A" = true ∧
      check_answer_correct q "1" = true) := by
  constructor
  · intro ua options options' h
    simp only [List.mem_cons, List.not_mem_nil, or_false] at h
    unfold normalize_answer
    rcases h with h | h | h | h | h | h | h | h <;> rw [h] <;> rfl
  · intro q hq
    refine ⟨?_, ?_, ?_⟩ <;> (unfold check_answer_correct; rw [hq]; rfl)

/-- Witness for C4: the letter answer "b" normalizes the same under two
different option lists, and for the concrete OOP question (correct answer
"A") the raw answers "a", "A" and "1" are judged correct. -/
theorem answer_normalization_priority_order_witness :
    (pyUpper (pyStrip "b") ∈
      (["A", "B", "C", "D", "1", "2", "3", "4"] : List String)) ∧
    normalize_answer "b" ["A) alpha", "B) beta"] = normalize_answer "b" [] ∧
    class_question.correct_answer = "A" ∧
    (check_answer_correct class_question "a" = true ∧
     check_answer_correct class_question "A" = true ∧
     check_answer_correct class_question "1" = true) :=
  ⟨by decide,
   answer_normalization_priority_order.1 "b" ["A) alpha", "B) beta"] [] (by decide),
   rfl,
   answer_normalization_priority_order.2 class_question rfl⟩

/-- Claim C6: a raw answer that matches no normalization step (not a
letter, not a digit 1-4, not a substring of any option) normalizes to none,
is judged incorrect, and the subsequent counter update resets the current
streak to 0. -/
theorem unmatched_answer_is_incorrect
    (ua : String) (q : QuizQuestion) (p : UserProfile)
    (hletter : pyUpper (pyStrip ua) ∉ (["A", "B", "C", "D"] : List String))
    (hdigit : pyUpper (pyStrip ua) ∉ (["1", "2", "3", "4"] : List String))
    (hscan : ∀ opt ∈ q.options, pyContains (pyLower opt) (pyLower ua) = false) :
    normalize_answer ua q.options = none ∧
    check_answer_correct q ua = false ∧
    (update_profile_statistics p false).current_streak = 0 := by
  have hfind : q.options.findIdx?
      (fun option => pyContains (pyLower option) (pyLower ua)) = none :=
    List.findIdx?_eq_none_iff.mpr hscan
  simp only [List.mem_cons, List.not_mem_nil, or_false, not_or] at hletter hdigit
  obtain ⟨hA, hB, hC, hD⟩ := hletter
  obtain ⟨h1, h2, h3, h4⟩ := hdigit
  have hl : (pyUpper (pyStrip ua) == "A" || pyUpper (pyStrip ua) == "B" ||
             pyUpper (pyStrip ua) == "C" || pyUpper (pyStrip ua) == "D") = false := by
    simp [hA, hB, hC, hD]
  have hd : (pyUpper (pyStrip ua) == "1" || pyUpper (pyStrip ua) == "2" ||
             pyUpper (pyStrip ua) == "3" || pyUpper (pyStrip ua) == "4") = false := by
    simp [h1, h2, h3, h4]
  refine ⟨?_, ?_, ?_⟩
  · simp only [normalize_answer, hl, hd, hfind]
    rfl
  · simp only [check_answer_correct, hl, hd, hfind]
    rfl
  · rfl

/-- Witness for C6: the raw answer "xyz-not-present" against the concrete
variables question is unmatched, judged incorrect, and the incorrect-path
update resets the streak of the fresh profile. -/
theorem unmatched_answer_is_incorrect_witness :
    normalize_answer "xyz-not-present" sample_question.options = none ∧
    check_answer_correct sample_question "xyz-not-present" = false ∧
    (update_profile_statistics fresh_profile false).current_streak = 0 :=
  unmatched_answer_is_incorrect "xyz-not-present" sample_question fresh_profile
    (by decide) (by decide) (by decide)

/-- The empty needle is a Python substring of every string. -/
lemma pyContains_empty_needle (hay : String) : pyContains hay "" = true := by
  unfold pyContains
  cases hd : hay.data with
  | nil => rfl
  | cons a l => rfl

/-- Claim C10: submitting the empty string is never treated as unmatched:
the substring scan matches the first option (the empty string is a
substring of every option text), so the empty answer normalizes to "A" and
is judged correct exactly when the question's correct answer is "A". -/
theorem empty_answer_matches_first_option
    (q : QuizQuestion) (hne : q.options ≠ []) :
    normalize_answer "" q.options = some "A" ∧
    (check_answer_correct q "" = true ↔ pyUpper (pyStrip q.correct_answer) = "A") := by
  obtain ⟨o, rest, hopt⟩ : ∃ o rest, q.options = o :: rest := by
    cases h : q.options with
    | nil => exact absurd h hne
    | cons o rest => exact ⟨o, rest, rfl⟩
  have hfind : q.options.findIdx?
      (fun option => pyContains (pyLower option) (pyLower "")) = some 0 := by
    rw [hopt, List.findIdx?_cons]
    simp [show pyLower "" = "" from rfl, pyContains_empty_needle]
  constructor
  · simp only [normalize_answer, hfind]
    rfl
  · simp only [check_answer_correct, hfind]
    rw [if_neg (by decide), if_neg (by decide)]
    show ("A" == pyUpper (pyStrip q.correct_answer)) = true ↔ _
    rw [beq_iff_eq]
    exact eq_comm

/-- Witness for C10 at the concrete variables question (whose correct
answer is "B", so the empty answer is judged incorrect there). -/
theorem empty_answer_matches_first_option_witness :
    sample_question.options ≠ [] ∧
    normalize_answer "" sample_question.options = some "A" ∧
    (check_answer_correct sample_question "" = true ↔
      pyUpper (pyStrip sample_question.correct_answer) = "A") :=
  ⟨by decide,
   (empty_answer_matches_first_option sample_question (by decide)).1,
   (empty_answer_matches_first_option sample_question (by decide)).2⟩

/-- Claim C9: no accuracy computation in the evaluator divides by zero: the
guarded computations (insights, performance summary, preferred difficulty)
explicitly yield 0 when the question total is 0, the raw division is
defined whenever the total is non-zero, and the feedback-path division only
runs on the post-increment profile, whose total is at least 1. -/
theorem no_division_by_zero_in_accuracy :
    (∀ p : UserProfile, p.total_questions = 0 → guarded_accuracy p = 0) ∧
    (∀ p : UserProfile, p.total_questions ≠ 0 →
      raw_accuracy p = some ((p.correct_answers : ℚ) / (p.total_questions : ℚ))) ∧
    (∀ (p : UserProfile) (expl now : String) (c : Bool),
      (0 : Int) ≤ p.total_questions →
      (generate_feedback
        { update_profile_statistics p c with last_quiz_date := some now }
        expl c).isSome = true) := by
  refine ⟨?_, fun p h => raw_accuracy_of_ne_zero p h,
    fun p expl now c h => generate_feedback_isSome p h expl now c⟩
  intro p h
  unfold guarded_accuracy
  simp [h]

/-- Witness for C9: the fresh profile (total 0) gets accuracy 0, alice's
profile divides safely, and feedback after an update from the fresh profile
is defined. -/
theorem no_division_by_zero_in_accuracy_witness :
    guarded_accuracy fresh_profile = 0 ∧
    raw_accuracy alice_profile =
      some ((alice_profile.correct_answers : ℚ) / (alice_profile.total_questions : ℚ)) ∧
    (generate_feedback
      { update_profile_statistics fresh_profile true with
        last_quiz_date := some "2024-01-02T09:00:00" }
      "why" true).isSome = true :=
  ⟨no_division_by_zero_in_accuracy.1 fresh_profile rfl,
   no_division_by_zero_in_accuracy.2.1 alice_profile (by decide),
   no_division_by_zero_in_accuracy.2.2 fresh_profile "why" "2024-01-02T09:00:00"
     true (by decide)⟩

/-- Every entry of the static fallback table is well-formed. -/
lemma fallback_table_wf :
    fallback_questions.all (fun cp => cp.2.all (fun tp => tp.2.all questionWF)) = true := by
  rfl

/-- The generic templated question is well-formed whatever is interpolated
into its text. -/
lemma generic_fallback_wf (course topic difficulty : String) :
    questionWF (generic_fallback_question course topic difficulty) = true := rfl

/-- A successful association-list lookup yields a member. -/
lemma mem_of_lookup_eq_some {β : Type _} {l : List (String × β)} {k : String} {b : β}
    (h : l.lookup k = some b) : (k, b) ∈ l := by
  obtain ⟨l₁, l₂, hl, -⟩ := List.lookup_eq_some_iff.mp h
  subst hl
  exact List.mem_append.mpr (Or.inr (List.mem_cons_self _ _))

/-- Every topic list obtained from the fallback table only holds
well-formed questions. -/
lemma topic_list_wf (course topic : String) :
    ((((fallback_questions.lookup course).getD []).lookup topic).getD []).all
      questionWF = true := by
  cases hc : fallback_questions.lookup course with
  | none => simp [hc]
  | some cq =>
    cases ht : cq.lookup topic with
    | none => simp [hc, ht]
    | some tq =>
      have h1 : cq.all (fun tp => tp.2.all questionWF) = true := by
        simpa using List.all_eq_true.mp fallback_table_wf _ (mem_of_lookup_eq_some hc)
      have h2 : tq.all questionWF = true := by
        simpa using List.all_eq_true.mp h1 _ (mem_of_lookup_eq_some ht)
      simpa [ht] using h2

/-- `getD` stays inside the list when the default is itself a member. -/
lemma getD_mem_of_mem {α : Type _} {l : List α} {d : α} (hd : d ∈ l) (i : Nat) :
    l.getD i d ∈ l := by
  rw [List.getD_eq_getElem?_getD]
  cases hg : l[i]? with
  | none => simpa using hd
  | some q => simpa using List.getElem?_mem hg

/-- `getD` of an all-well-formed list with a well-formed default is
well-formed. -/
lemma getD_wf {l : List FallbackQuestion} {d : FallbackQuestion}
    (hall : l.all questionWF = true) (hd : questionWF d = true) (i : Nat) :
    questionWF (l.getD i d) = true := by
  rw [List.getD_eq_getElem?_getD]
  cases hg : l[i]? with
  | none => simpa using hd
  | some q => simpa using List.all_eq_true.mp hall _ (List.getElem?_mem hg)

/-- Unpacking the boolean well-formedness check. -/
lemma questionWF_spec {q : FallbackQuestion} (h : questionWF q = true) :
    q.options.length = 4 ∧
    q.correct_answer ∈ (["A", "B", "C", "D"] : List String) := by
  unfold questionWF at h
  simp only [Bool.and_eq_true, Bool.or_eq_true, beq_iff_eq] at h
  obtain ⟨hlen, hca⟩ := h
  refine ⟨hlen, ?_⟩
  simp only [List.mem_cons, List.not_mem_nil, or_false]
  tauto

/-- Claim C5: the static fallback path never fails: for every
(course, topic, difficulty) triple and every random pick it returns a
question with exactly 4 options and a correct answer in A-D, and for
python-basics / Variables and Data Types / beginner the returned question
is one of the entries of the static per-topic table. -/
theorem fallback_question_always_wellformed :
    (∀ (course topic difficulty : String) (pick : Nat),
      (get_fallback_question course topic difficulty pick).options.length = 4 ∧
      (get_fallback_question course topic difficulty pick).correct_answer ∈
        (["A", "B", "C", "D"] : List String)) ∧
    (∀ pick : Nat,
      get_fallback_question "python-basics" "Variables and Data Types" "beginner" pick ∈
        variables_and_data_types_questions) := by
  constructor
  · intro course topic difficulty pick
    apply questionWF_spec
    have hall := topic_list_wf course topic
    simp only [get_fallback_question]
    cases htq : ((((fallback_questions.lookup course).getD []).lookup topic).getD []) with
    | nil =>
      exact generic_fallback_wf course topic difficulty
    | cons q qs =>
      rw [htq] at hall
      have hq : questionWF q = true := by
        simp only [List.all_cons, Bool.and_eq_true] at hall
        exact hall.1
      exact getD_wf hall hq _
  · intro pick
    exact getD_mem_of_mem (List.mem_cons_self _ _) (pick % 3)

end AutomatedAI
